import Mathlib

/-!
Shallow embedding of `src/nr_openai_observability/build_events.py`.

Python dictionaries that become telemetry events are modelled as association
lists `List (String × Value)` built in source order; `dict.update(other)` and
a `**spread` appearing later in a literal override earlier bindings, so the
lookup `getField` gives the LAST binding of a key, matching Python semantics.

Ambient effects are passed explicitly:
  * `newrelic.agent.current_span_id / current_trace_id / current_transaction`
    become a `TraceState` argument;
  * `uuid.uuid4()` becomes a supply `uuids : Nat → String` (one index per
    call site occurrence) or a single `String` argument where the builder
    calls it once;
  * `datetime.now()` becomes a `now : Nat` argument;
  * the `call_vars` context variables (conversation id, response model)
    become explicit arguments;
  * `tiktoken.encoding_for_model` becomes an argument
    `encFor : String → Option (String → Nat)` returning, for a known model,
    the function text ↦ `len(encoding.encode(text))`; `KeyError` is `none`.

Fallible code (Python raising on `None[:4095]` or on `choices[0]` of an empty
list) is modelled with `Option`: `none` is the raised exception.
-/

/-- A Python scalar stored in an event field. `vnone` is Python `None`. -/
inductive Value where
  | vnone : Value
  | vstr : String → Value
  | vint : Int → Value
  | vbool : Bool → Value
  | vtime : Nat → Value
  deriving DecidableEq

/-- Python `dict.get(key)` for a plain dict (unique keys, first binding wins). -/
def dictGet : List (String × String) → String → Option String
  | [], _ => none
  | kv :: rest, key => if kv.1 = key then some kv.2 else dictGet rest key

/-- Lookup in an event association list; the LAST binding of a key wins, so
that appending bindings models Python `dict.update` / later literal entries. -/
def getField : List (String × Value) → String → Option Value
  | [], _ => none
  | kv :: rest, key =>
    match getField rest key with
    | some v => some v
    | none => if kv.1 = key then some kv.2 else none

theorem getField_cons_ne (k : String) (v : Value) (rest : List (String × Value))
    (key : String) (h : k ≠ key) :
    getField ((k, v) :: rest) key = getField rest key := by
  cases hrest : getField rest key with
  | none => simp [getField, hrest, h]
  | some w => simp [getField, hrest]

theorem getField_append_of_not_mem (l tags : List (String × Value)) (key : String)
    (h : ∀ kv ∈ tags, kv.1 ≠ key) :
    getField (l ++ tags) key = getField l key := by
  induction l with
  | nil =>
    simp only [List.nil_append]
    induction tags with
    | nil => rfl
    | cons kv rest ih =>
      have hkv : kv.1 ≠ key := h kv (by simp)
      have hrest : ∀ kv2 ∈ rest, kv2.1 ≠ key := fun kv2 hm => h kv2 (by simp [hm])
      rw [getField_cons_ne kv.1 kv.2 rest key hkv] at *
      exact ih hrest
  | cons kv rest ih =>
    simp only [List.cons_append]
    unfold getField
    rw [ih]

/-- Python `needle in hay` (substring containment), on character lists. -/
def startsWithList : List Char → List Char → Bool
  | _, [] => true
  | [], _ :: _ => false
  | a :: as, b :: bs => a = b && startsWithList as bs

/-- Substring search scanning each suffix of the haystack. -/
def hasSubList : List Char → List Char → Bool
  | [], needle => needle.isEmpty
  | hay@(_ :: t), needle => startsWithList hay needle || hasSubList t needle

/-- Python `needle in hay` on strings. -/
def strContains (hay needle : String) : Bool :=
  hasSubList hay.data needle.data

/-- Python `s[:4095]`: the first 4095 characters of `s`. -/
def strTruncate (s : String) : String :=
  ⟨s.data.take 4095⟩

/-- Python `s[-4:]`: the last (at most) four characters of `s`. -/
def lastFour (s : String) : String :=
  ⟨s.data.drop (s.data.length - 4)⟩

/-- Python `header and header.isdigit()`: true iff nonempty and all digits. -/
def isPyDigits (s : String) : Bool :=
  !s.isEmpty && s.data.all Char.isDigit

/-- Python `int(s)` on an all-digit string. -/
def parseDigits (s : String) : Int :=
  s.data.foldl (fun acc c => acc * 10 + ((c.toNat : Int) - 48)) 0

/-- Python `a or b` on two optional strings (`None` and `""` are falsy). -/
def pyOrStr (a b : Option String) : Option String :=
  match a with
  | some s => if s ≠ "" then some s else b
  | none => b

/-- Embed an optional string as an event value (`None` ↦ `vnone`). -/
def ofOptStr : Option String → Value
  | none => Value.vnone
  | some s => Value.vstr s

/-- Embed an optional integer as an event value (`None` ↦ `vnone`). -/
def ofOptInt : Option Int → Value
  | none => Value.vnone
  | some n => Value.vint n

/-- Python truthiness of an optional token count: `None` and `0` are falsy. -/
def pyTruthyInt : Option Int → Bool
  | none => false
  | some n => n ≠ 0

/-- Ambient `newrelic.agent` tracing state: current span id, trace id, and
the guid of the current transaction (`none` when no transaction is active). -/
structure TraceState where
  span_id : Option String
  trace_id : Option String
  transaction_guid : Option String
  deriving DecidableEq

/-- Embedding of `get_trace_details` (build_events.py lines 258-272). -/
def get_trace_details (ts : TraceState) : List (String × Value) :=
  [("span_id", ofOptStr ts.span_id),
   ("trace_id", ofOptStr ts.trace_id),
   ("trace.id", ofOptStr ts.trace_id),
   ("transaction_id", ofOptStr ts.transaction_guid),
   ("transactionId", ofOptStr ts.transaction_guid)]

/-- A chat message: a Python dict from string keys to string values. -/
def Msg := List (String × String)

/-- Embedding of `message.get(key)` on a chat message. -/
def msgGet (m : Msg) (key : String) : Option String :=
  dictGet m key

/-- Embedding of `build_messages_events` (build_events.py lines 17-48).
`uuids` supplies the results of the successive `uuid.uuid4()` calls: for
message index `i`, index `2*i` is the line-27 call and `2*i+1` the line-35
call.  `prev_response_model` is the ambient `call_vars` response model before
the call; line 21-22 overwrite it with `model` when `model` is not `None`.
Line 18 reassigns the `completion_id` parameter from the current span id.
Note the line-27/33 `message_id` is computed but never used: line 35 stores a
fresh uuid in the `id` field, exactly as the source does. -/
def build_messages_events (ts : TraceState) (prev_response_model : Option String)
    (uuids : Nat → String) (messages : List Msg) (model : Option String)
    (completion_id : Option String) (message_id_override : Option String)
    (response_id : Option String) (tags : List (String × Value))
    (start_seq_num : Nat) : List (List (String × Value)) :=
  let completion_id := ts.span_id
  let response_model := if model.isSome then model else prev_response_model
  messages.enum.map (fun p =>
    let index := p.1
    let message := p.2
    let message_id := uuids (2 * index)
    let message_id :=
      if message_id_override.isSome then message_id_override.getD ""
      else if response_id.isSome then response_id.getD "" ++ "-" ++ toString index
      else message_id
    ([("id", Value.vstr (uuids (2 * index + 1))),
      ("completion_id", ofOptStr completion_id),
      ("content", Value.vstr (strTruncate ((msgGet message "content").getD ""))),
      ("role", ofOptStr (msgGet message "role")),
      ("sequence", Value.vint (index + start_seq_num)),
      ("model", ofOptStr response_model),
      ("vendor", Value.vstr "openAI"),
      ("ingest_source", Value.vstr "PythonSDK")]
      ++ get_trace_details ts) ++ tags)

/-- Embedding of `_get_rate_limit_data` (build_events.py lines 50-64). -/
def _get_rate_limit_data (response_headers : List (String × String)) :
    List (String × Value) :=
  let numericHeader := fun (name : String) =>
    match dictGet response_headers name with
    | none => none
    | some header => if isPyDigits header then some (parseDigits header) else none
  [("ratelimit_limit_requests", ofOptInt (numericHeader "ratelimit_limit_requests")),
   ("ratelimit_limit_tokens", ofOptInt (numericHeader "ratelimit_limit_tokens")),
   ("ratelimit_reset_tokens", ofOptStr (dictGet response_headers "x-ratelimit-reset-tokens")),
   ("ratelimit_reset_requests", ofOptStr (dictGet response_headers "x-ratelimit-reset-requests")),
   ("ratelimit_remaining_tokens", ofOptInt (numericHeader "ratelimit_remaining_tokens")),
   ("ratelimit_remaining_requests", ofOptInt (numericHeader "ratelimit_remaining_requests"))]

/-- Embedding of `calc_completion_tokens` (build_events.py lines 67-74).  `encFor` is
`tiktoken.encoding_for_model`; a model raising `KeyError` maps to `none`.
A known model's encoding is abstracted to text ↦ `len(encoding.encode(text))`. -/
def calc_completion_tokens (encFor : String → Option (String → Nat))
    (model message_content : String) : Option Int :=
  match encFor model with
  | none => none
  | some encoding => some (encoding message_content : Int)

/-- Embedding of `calc_prompt_tokens` (build_events.py lines 77-108). -/
def calc_prompt_tokens (encFor : String → Option (String → Nat))
    (model : String) (messages : List Msg) : Option Int :=
  match encFor model with
  | none => none
  | some encoding =>
    let num_of_tokens_per_msg : Int := if model = "gpt-3.5-turbo-0301" then 4 else 3
    let num_of_tokens_per_name : Int := if model = "gpt-3.5-turbo-0301" then -1 else 1
    if !strContains model "gpt-4" && !strContains model "gpt-3" then none
    else
      some (messages.foldl (fun acc message =>
        let acc := acc + num_of_tokens_per_msg
        message.foldl (fun acc2 kv =>
          let acc2 := acc2 + (encoding kv.2 : Int)
          if kv.1 = "name" then acc2 + num_of_tokens_per_name else acc2) acc) 3)

/-- A request snapshot: the keys of the request dict that the builders read.
`temperature` and `max_tokens` are abstracted to optional integers (their
numeric type is irrelevant to every claim). -/
structure Request where
  model : Option String
  engine : Option String
  messages : Option (List Msg)
  temperature : Option Int
  max_tokens : Option Int
  input : Option String

/-- The usage record of a completion response. -/
structure Usage where
  prompt_tokens : Int
  completion_tokens : Int
  total_tokens : Int
  deriving DecidableEq

/-- A completion response snapshot: the attributes the builders read.
`choices` holds each choice's `finish_reason`. -/
structure Response where
  api_key : String
  model : String
  id : String
  usage : Usage
  choices : List (Option String)
  api_type : String
  organization : Option String

/-- The last chunk of a streamed completion: the attributes
`build_stream_completion_events` reads. -/
structure StreamChunk where
  api_key : String
  model : String
  choices : List (Option String)
  api_type : String
  organization : Option String

/-- An OpenAI error object, flattened: `organization` and `http_status` live
on the error itself, the remaining fields on its nested `error` attribute. -/
structure OpenAIError where
  organization : Option String
  http_status : Int
  message : String
  type : Option String
  code : Option String
  param : Option String

/-- The usage record of an embedding response (no completion tokens). -/
structure EmbUsage where
  prompt_tokens : Int
  total_tokens : Int
  deriving DecidableEq

/-- An embedding response snapshot. -/
structure EmbResponse where
  api_key : String
  model : String
  usage : EmbUsage
  api_type : String
  organization : Option String

/-- Embedding of `build_stream_completion_events` (build_events.py lines 111-152).
`conversation_id` is the ambient `call_vars` conversation id and
`response_time_ms` stands for `int(response_time * 1000)`.  Python raises
`IndexError` on `last_chunk.choices[0]` when `choices` is empty; that raise
is the `none` result. -/
def build_stream_completion_events (encFor : String → Option (String → Nat))
    (ts : TraceState) (conversation_id : Option String) (last_chunk : StreamChunk)
    (request : Request) (response_headers : List (String × String)) (message : Msg)
    (response_time_ms : Int) (completion_id : String) :
    Option (List (String × Value)) :=
  match last_chunk.choices.head? with
  | none => none
  | some finish_reason =>
    let request_messages := request.messages.getD []
    let prompt_tokens := calc_prompt_tokens encFor last_chunk.model request_messages
    let completion_tokens :=
      calc_completion_tokens encFor last_chunk.model ((msgGet message "content").getD "")
    let total_tokens :=
      if pyTruthyInt completion_tokens && pyTruthyInt prompt_tokens then
        some (completion_tokens.getD 0 + prompt_tokens.getD 0)
      else none
    some (([("id", Value.vstr completion_id),
      ("conversation_id", ofOptStr conversation_id),
      ("api_key_last_four_digits", Value.vstr ("sk-" ++ lastFour last_chunk.api_key)),
      ("response_time", Value.vint response_time_ms),
      ("request.model", ofOptStr (pyOrStr request.model request.engine)),
      ("response.model", Value.vstr last_chunk.model),
      ("usage.completion_tokens", ofOptInt completion_tokens),
      ("usage.total_tokens", ofOptInt total_tokens),
      ("usage.prompt_tokens", ofOptInt prompt_tokens),
      ("temperature", ofOptInt request.temperature),
      ("max_tokens", ofOptInt request.max_tokens),
      ("finish_reason", ofOptStr finish_reason),
      ("api_type", Value.vstr last_chunk.api_type),
      ("vendor", Value.vstr "openAI"),
      ("ingest_source", Value.vstr "PythonSDK"),
      ("number_of_messages", Value.vint ((request.messages.getD []).length + 1)),
      ("organization", ofOptStr last_chunk.organization),
      ("api_version", ofOptStr (dictGet response_headers "openai-version")),
      ("response", Value.vstr (strTruncate ((msgGet message "content").getD ""))),
      ("stream", Value.vbool true)]
      ++ get_trace_details ts)
      ++ _get_rate_limit_data response_headers)

/-- Embedding of `build_completion_summary` (build_events.py lines 155-185).  The raise of
`IndexError` on `response.choices[0]` for an empty `choices` is `none`. -/
def build_completion_summary (ts : TraceState) (conversation_id : Option String)
    (response : Response) (request : Request)
    (response_headers : List (String × String)) (response_time_ms : Int)
    (final_message : Msg) (completion_id : String) :
    Option (List (String × Value)) :=
  match response.choices.head? with
  | none => none
  | some finish_reason =>
    some (([("id", Value.vstr completion_id),
      ("conversation_id", ofOptStr conversation_id),
      ("api_key_last_four_digits", Value.vstr ("sk-" ++ lastFour response.api_key)),
      ("response_time", Value.vint response_time_ms),
      ("request.model", ofOptStr (pyOrStr request.model request.engine)),
      ("response.model", Value.vstr response.model),
      ("response.id", Value.vstr response.id),
      ("usage.completion_tokens", Value.vint response.usage.completion_tokens),
      ("usage.total_tokens", Value.vint response.usage.total_tokens),
      ("usage.prompt_tokens", Value.vint response.usage.prompt_tokens),
      ("temperature", ofOptInt request.temperature),
      ("max_tokens", ofOptInt request.max_tokens),
      ("finish_reason", ofOptStr finish_reason),
      ("api_type", Value.vstr response.api_type),
      ("vendor", Value.vstr "openAI"),
      ("ingest_source", Value.vstr "PythonSDK"),
      ("number_of_messages",
        Value.vint ((request.messages.getD []).length + response.choices.length)),
      ("organization", ofOptStr response.organization),
      ("api_version", ofOptStr (dictGet response_headers "openai-version")),
      ("response", Value.vstr (strTruncate ((msgGet final_message "content").getD ""))),
      ("stream", Value.vbool false)]
      ++ get_trace_details ts)
      ++ _get_rate_limit_data response_headers)

/-- Embedding of `build_completion_summary_for_error` (build_events.py lines 188-208).
`openai_api_key` is the ambient `openai.api_key`. -/
def build_completion_summary_for_error (ts : TraceState) (openai_api_key : String)
    (request : Request) (error : OpenAIError) (completion_id : String)
    (isStream : Bool) : List (String × Value) :=
  [("id", Value.vstr completion_id),
   ("api_key_last_four_digits", Value.vstr ("sk-" ++ lastFour openai_api_key)),
   ("request.model", ofOptStr (pyOrStr request.model request.engine)),
   ("temperature", ofOptInt request.temperature),
   ("max_tokens", ofOptInt request.max_tokens),
   ("vendor", Value.vstr "openAI"),
   ("ingest_source", Value.vstr "PythonSDK"),
   ("organization", ofOptStr error.organization),
   ("number_of_messages", Value.vint (request.messages.getD []).length),
   ("error_status", Value.vint error.http_status),
   ("error_message", Value.vstr error.message),
   ("error_type", ofOptStr error.type),
   ("error_code", ofOptStr error.code),
   ("error_param", ofOptStr error.param),
   ("stream", Value.vbool isStream)]
  ++ get_trace_details ts

/-- Embedding of `build_embedding_event` (build_events.py lines 211-233).  `u` is the
`uuid.uuid4()` result and `now` the `datetime.now()` stamp.  When the request
has no `"input"` key, `request.get("input")[:4095]` is `None[:4095]`, a
`TypeError`; that raise is the `none` result. -/
def build_embedding_event (ts : TraceState) (u : String) (now : Nat)
    (response : EmbResponse) (request : Request)
    (response_headers : List (String × String)) (response_time_ms : Int) :
    Option (List (String × Value)) :=
  match request.input with
  | none => none
  | some input =>
    some (([("id", Value.vstr u),
      ("input", Value.vstr (strTruncate input)),
      ("api_key_last_four_digits", Value.vstr ("sk-" ++ lastFour response.api_key)),
      ("timestamp", Value.vtime now),
      ("response_time", Value.vint response_time_ms),
      ("request.model", ofOptStr (pyOrStr request.model request.engine)),
      ("response.model", Value.vstr response.model),
      ("usage.total_tokens", Value.vint response.usage.total_tokens),
      ("usage.prompt_tokens", Value.vint response.usage.prompt_tokens),
      ("api_type", Value.vstr response.api_type),
      ("vendor", Value.vstr "openAI"),
      ("ingest_source", Value.vstr "PythonSDK"),
      ("organization", ofOptStr response.organization),
      ("api_version", ofOptStr (dictGet response_headers "openai-version"))]
      ++ get_trace_details ts)
      ++ _get_rate_limit_data response_headers)

/-- Embedding of `build_embedding_error_event` (build_events.py lines 236-255). -/
def build_embedding_error_event (ts : TraceState) (u : String) (now : Nat)
    (openai_api_key : String) (request : Request) (error : OpenAIError) :
    List (String × Value) :=
  [("id", Value.vstr u),
   ("api_key_last_four_digits", Value.vstr ("sk-" ++ lastFour openai_api_key)),
   ("timestamp", Value.vtime now),
   ("request.model", ofOptStr (pyOrStr request.model request.engine)),
   ("vendor", Value.vstr "openAI"),
   ("ingest_source", Value.vstr "PythonSDK"),
   ("organization", ofOptStr error.organization),
   ("error_status", Value.vint error.http_status),
   ("error_message", Value.vstr error.message),
   ("error_type", ofOptStr error.type),
   ("error_code", ofOptStr error.code),
   ("error_param", ofOptStr error.param)]
  ++ get_trace_details ts

/-- Embedding of `build_ai_feedback_event` (build_events.py lines 274-287).  `u` is the
`uuid.uuid4()` result and `now` the `datetime.now()` stamp; the other
arguments are passed straight into the event. -/
def build_ai_feedback_event (u : String) (now : Nat) (category : Value)
    (rating : Value) (message_id : Value) (conversation_id : Value)
    (request_id : Value) (message : String) : List (String × Value) :=
  [("id", Value.vstr u),
   ("conversation_id", conversation_id),
   ("message_id", message_id),
   ("request_id", request_id),
   ("rating", rating),
   ("message", Value.vstr message),
   ("category", category),
   ("ingest_source", Value.vstr "PythonSDK"),
   ("timestamp", Value.vtime now)]

/-! ### Concrete fixtures used to instantiate the theorems. -/

/-- A sample ambient tracing state. -/
def tsX : TraceState := ⟨some "span-1", some "trace-1", some "txn-1"⟩

/-- A sample uuid supply. -/
def uuidsX : Nat → String := fun n => "uuid-" ++ toString n

/-- A sample tokenizer table: every model containing "gpt" gets the
character-count encoding, every other model is unknown. -/
def encForX : String → Option (String → Nat) :=
  fun m => if strContains m "gpt" then some (fun s => s.length) else none

/-- A sample chat message. -/
def msgX : Msg := [("role", "user"), ("content", "hi")]

/-- A sample request. -/
def reqX : Request := ⟨some "gpt-4", none, some [msgX], some 1, some 16, some "hello world"⟩

/-- A request whose message list is empty and that has no `"input"` key. -/
def reqNoMsgs : Request := ⟨some "gpt-4", none, some [], some 1, some 16, none⟩

/-- A sample final stream chunk. -/
def lcX : StreamChunk := ⟨"abcd1234", "gpt-4", [some "stop"], "open_ai", some "org-1"⟩

/-- A sample completion response. -/
def respX : Response := ⟨"abcd1234", "gpt-4", "resp-1", ⟨7, 5, 12⟩, [some "stop"], "open_ai", some "org-1"⟩

/-- A sample OpenAI error object. -/
def errX : OpenAIError := ⟨some "org-1", 429, "boom", some "rate_limit_error", none, none⟩

/-- A sample embedding response. -/
def embRespX : EmbResponse := ⟨"abcd1234", "text-embedding-ada-002", ⟨2, 2⟩, "open_ai", some "org-1"⟩

/-- Sample response headers. -/
def hdrsX : List (String × String) :=
  [("openai-version", "2020-10-01"), ("ratelimit_limit_requests", "60"),
   ("ratelimit_limit_tokens", "60x"), ("x-ratelimit-reset-tokens", "6m0s")]

/-! ### C1 -/

/-- C1 counterexample: the feedback-event builder produces an event with no
`vendor` field at all (it does carry `ingest_source`), so the claim that
every builder stamps `vendor="openAI"` fails on `build_ai_feedback_event`. -/
theorem C1_counterexample :
    getField (build_ai_feedback_event "uuid-0" 0 (Value.vstr "informative")
      (Value.vint 5) (Value.vstr "msg-1") (Value.vstr "conv-1")
      (Value.vstr "req-1") "great") "vendor" = none ∧
    getField (build_ai_feedback_event "uuid-0" 0 (Value.vstr "informative")
      (Value.vint 5) (Value.vstr "msg-1") (Value.vstr "conv-1")
      (Value.vstr "req-1") "great") "ingest_source" = some (Value.vstr "PythonSDK") := by
  exact ⟨rfl, rfl⟩

/-- C1 amended: every builder stamps `ingest_source="PythonSDK"`, and every
builder except the feedback builder also stamps `vendor="openAI"` (for the
message builder, provided the caller's tags do not override those keys); the
feedback event carries no `vendor` field. -/
theorem C1_every_event_tagged :
    (∀ ts prm uuids msgs model cid ovr rid tags seq e,
      (∀ kv ∈ tags, kv.1 ≠ "vendor" ∧ kv.1 ≠ "ingest_source") →
      e ∈ build_messages_events ts prm uuids msgs model cid ovr rid tags seq →
      getField e "vendor" = some (Value.vstr "openAI") ∧
      getField e "ingest_source" = some (Value.vstr "PythonSDK")) ∧
    (∀ encFor ts conv lc req hdrs msg rt cid e,
      build_stream_completion_events encFor ts conv lc req hdrs msg rt cid = some e →
      getField e "vendor" = some (Value.vstr "openAI") ∧
      getField e "ingest_source" = some (Value.vstr "PythonSDK")) ∧
    (∀ ts conv resp req hdrs rt fm cid e,
      build_completion_summary ts conv resp req hdrs rt fm cid = some e →
      getField e "vendor" = some (Value.vstr "openAI") ∧
      getField e "ingest_source" = some (Value.vstr "PythonSDK")) ∧
    (∀ ts key req err cid s,
      getField (build_completion_summary_for_error ts key req err cid s) "vendor"
        = some (Value.vstr "openAI") ∧
      getField (build_completion_summary_for_error ts key req err cid s) "ingest_source"
        = some (Value.vstr "PythonSDK")) ∧
    (∀ ts u now resp req hdrs rt e,
      build_embedding_event ts u now resp req hdrs rt = some e →
      getField e "vendor" = some (Value.vstr "openAI") ∧
      getField e "ingest_source" = some (Value.vstr "PythonSDK")) ∧
    (∀ ts u now key req err,
      getField (build_embedding_error_event ts u now key req err) "vendor"
        = some (Value.vstr "openAI") ∧
      getField (build_embedding_error_event ts u now key req err) "ingest_source"
        = some (Value.vstr "PythonSDK")) ∧
    (∀ u now c r mi ci ri m,
      getField (build_ai_feedback_event u now c r mi ci ri m) "ingest_source"
        = some (Value.vstr "PythonSDK") ∧
      getField (build_ai_feedback_event u now c r mi ci ri m) "vendor" = none) := by
  refine ⟨?_, ?_, ?_, ?_, ?_, ?_, ?_⟩
  · intro ts prm uuids msgs model cid ovr rid tags seq e htags he
    unfold build_messages_events at he
    simp only [List.mem_map] at he
    obtain ⟨p, _, rfl⟩ := he
    constructor
    · rw [getField_append_of_not_mem _ tags _ (fun kv h => (htags kv h).1)]
      simp [getField, get_trace_details]
    · rw [getField_append_of_not_mem _ tags _ (fun kv h => (htags kv h).2)]
      simp [getField, get_trace_details]
  · intro encFor ts conv lc req hdrs msg rt cid e h
    unfold build_stream_completion_events at h
    cases hc : lc.choices.head? with
    | none => rw [hc] at h; exact absurd h (by simp)
    | some fr =>
      rw [hc] at h
      simp only [Option.some.injEq] at h
      subst h
      constructor <;> simp [getField, get_trace_details, _get_rate_limit_data]
  · intro ts conv resp req hdrs rt fm cid e h
    unfold build_completion_summary at h
    cases hc : resp.choices.head? with
    | none => rw [hc] at h; exact absurd h (by simp)
    | some fr =>
      rw [hc] at h
      simp only [Option.some.injEq] at h
      subst h
      constructor <;> simp [getField, get_trace_details, _get_rate_limit_data]
  · intro ts key req err cid s
    constructor <;> simp [build_completion_summary_for_error, getField, get_trace_details]
  · intro ts u now resp req hdrs rt e h
    unfold build_embedding_event at h
    cases hc : req.input with
    | none => rw [hc] at h; exact absurd h (by simp)
    | some inp =>
      rw [hc] at h
      simp only [Option.some.injEq] at h
      subst h
      constructor <;> simp [getField, get_trace_details, _get_rate_limit_data]
  · intro ts u now key req err
    constructor <;> simp [build_embedding_error_event, getField, get_trace_details]
  · intro u now c r mi ci ri m
    constructor <;> simp [build_ai_feedback_event, getField]

/-- C1 witness: the amended theorem instantiated on concrete sample calls of
the message, streaming-completion, completion-summary and embedding builders. -/
theorem C1_witness :
    getField ((build_messages_events tsX none uuidsX [msgX] (some "gpt-4") none
      (some "ovr-1") none [] 0).headD []) "vendor" = some (Value.vstr "openAI") ∧
    getField ((build_stream_completion_events encForX tsX (some "conv-1") lcX reqX
      hdrsX msgX 5 "cid-1").getD []) "ingest_source" = some (Value.vstr "PythonSDK") ∧
    getField ((build_completion_summary tsX (some "conv-1") respX reqX hdrsX 5 msgX
      "cid-1").getD []) "vendor" = some (Value.vstr "openAI") ∧
    getField ((build_embedding_event tsX "uuid-9" 7 embRespX reqX hdrsX 5).getD [])
      "vendor" = some (Value.vstr "openAI") := by
  refine ⟨?_, ?_, ?_, ?_⟩
  · exact (C1_every_event_tagged.1 tsX none uuidsX [msgX] (some "gpt-4") none
      (some "ovr-1") none [] 0 _ (by simp) (by decide)).1
  · exact (C1_every_event_tagged.2.1 encForX tsX (some "conv-1") lcX reqX hdrsX
      msgX 5 "cid-1" _ (by rfl)).2
  · exact (C1_every_event_tagged.2.2.1 tsX (some "conv-1") respX reqX hdrsX 5 msgX
      "cid-1" _ (by rfl)).1
  · exact (C1_every_event_tagged.2.2.2.2.1 tsX "uuid-9" 7 embRespX reqX hdrsX 5 _
      (by rfl)).1

/-! ### C2 -/

/-- The `usage.total_tokens` field of a streaming-completion event equals the
source's conditional sum of the two token counters. -/
theorem getField_stream_total (encFor : String → Option (String → Nat)) (ts : TraceState)
    (conv : Option String) (lc : StreamChunk) (req : Request)
    (hdrs : List (String × String)) (msg : Msg) (rt : Int) (cid : String)
    (e : List (String × Value))
    (h : build_stream_completion_events encFor ts conv lc req hdrs msg rt cid = some e) :
    getField e "usage.total_tokens" = ofOptInt (
      if pyTruthyInt (calc_completion_tokens encFor lc.model ((msgGet msg "content").getD "")) &&
         pyTruthyInt (calc_prompt_tokens encFor lc.model (req.messages.getD [])) then
        some ((calc_completion_tokens encFor lc.model ((msgGet msg "content").getD "")).getD 0 +
              (calc_prompt_tokens encFor lc.model (req.messages.getD [])).getD 0)
      else none) := by
  unfold build_stream_completion_events at h
  cases hc : lc.choices.head? with
  | none => rw [hc] at h; exact absurd h (by simp)
  | some fr =>
    rw [hc] at h
    simp only [Option.some.injEq] at h
    subst h
    simp [getField, get_trace_details, _get_rate_limit_data]

/-- C2 counterexample: for an empty streamed message the completion count is
a defined `0` and the prompt count a defined `3`, yet `usage.total_tokens`
is `None` rather than `3`: the source guard `if completion_tokens and
prompt_tokens` treats the integer `0` as falsy, so the claim's "including
when either count is 0" fails. -/
theorem C2_counterexample :
    getField ((build_stream_completion_events encForX tsX none lcX reqNoMsgs []
      [("content", "")] 5 "cid-1").getD []) "usage.completion_tokens"
        = some (Value.vint 0) ∧
    getField ((build_stream_completion_events encForX tsX none lcX reqNoMsgs []
      [("content", "")] 5 "cid-1").getD []) "usage.prompt_tokens"
        = some (Value.vint 3) ∧
    getField ((build_stream_completion_events encForX tsX none lcX reqNoMsgs []
      [("content", "")] 5 "cid-1").getD []) "usage.total_tokens"
        = some Value.vnone := by
  refine ⟨by decide, by decide, by decide⟩

/-- C2 amended: `usage.total_tokens` equals prompt plus completion tokens
when both counts are defined and nonzero, and is `None` whenever either
count is undefined or zero; it is never a partial sum. -/
theorem C2_total_tokens (encFor : String → Option (String → Nat)) (ts : TraceState)
    (conv : Option String) (lc : StreamChunk) (req : Request)
    (hdrs : List (String × String)) (msg : Msg) (rt : Int) (cid : String)
    (e : List (String × Value))
    (h : build_stream_completion_events encFor ts conv lc req hdrs msg rt cid = some e) :
    (∀ c p, calc_completion_tokens encFor lc.model ((msgGet msg "content").getD "") = some c →
      calc_prompt_tokens encFor lc.model (req.messages.getD []) = some p →
      c ≠ 0 → p ≠ 0 →
      getField e "usage.total_tokens" = some (Value.vint (c + p))) ∧
    ((calc_completion_tokens encFor lc.model ((msgGet msg "content").getD "") = none ∨
      calc_completion_tokens encFor lc.model ((msgGet msg "content").getD "") = some 0 ∨
      calc_prompt_tokens encFor lc.model (req.messages.getD []) = none ∨
      calc_prompt_tokens encFor lc.model (req.messages.getD []) = some 0) →
      getField e "usage.total_tokens" = some Value.vnone) := by
  have hv := getField_stream_total encFor ts conv lc req hdrs msg rt cid e h
  constructor
  · intro c p hcc hpp hc0 hp0
    rw [hv, hcc, hpp]
    simp [pyTruthyInt, hc0, hp0, ofOptInt]
  · intro hdisj
    rw [hv]
    rcases hdisj with hd | hd | hd | hd <;> rw [hd] <;> simp [pyTruthyInt, ofOptInt]

/-- C2 witness: on a concrete streamed completion with 2 completion tokens
and 12 prompt tokens the total field is 14. -/
theorem C2_witness :
    getField ((build_stream_completion_events encForX tsX none lcX reqX hdrsX msgX
      5 "cid-1").getD []) "usage.total_tokens" = some (Value.vint 14) := by
  have hv := (C2_total_tokens encForX tsX none lcX reqX hdrsX msgX 5 "cid-1" _
    (by rfl)).1 2 12 (by decide) (by decide) (by decide) (by decide)
  simpa using hv

/-! ### C3 -/

/-- A tokenizer table knowing only the legacy model, with the
character-count encoding as the abstract token counter. -/
def encC3 : String → Option (String → Nat) :=
  fun m => if m = "gpt-3.5-turbo-0301" then some (fun s => s.length) else none

/-- C3 counterexample: for the one-message prompt
`[{"role": "user", "content": "hi"}]` — a message with no `"name"` key — the
counter returns 3 + 4 + tokens("user") + tokens("hi") = 13, not the claimed
3 + 4 + tokens("hi") = 9: the source loop adds the token length of EVERY
value of the message dict, the role included, not only the content. -/
theorem C3_counterexample :
    calc_prompt_tokens encC3 "gpt-3.5-turbo-0301" [[("role", "user"), ("content", "hi")]]
      = some 13 ∧
    calc_prompt_tokens encC3 "gpt-3.5-turbo-0301" [[("role", "user"), ("content", "hi")]]
      ≠ some (3 + 4 + (("hi").length : Int)) := by
  refine ⟨by decide, by decide⟩

/-- C3 amended: for model "gpt-3.5-turbo-0301" and a one-message prompt the
counter returns 3 (base) + 4 (per-message) + the sum of the token lengths of
all of the message's values; when the message's only key is `"content"`,
this is 3 + 4 + the token length of the content string. -/
theorem C3_prompt_tokens_single_content (encFor : String → Option (String → Nat))
    (enc : String → Nat) (c : String) (h : encFor "gpt-3.5-turbo-0301" = some enc) :
    calc_prompt_tokens encFor "gpt-3.5-turbo-0301" [[("content", c)]]
      = some (3 + 4 + (enc c : Int)) := by
  unfold calc_prompt_tokens
  rw [h]
  have h43 : (!strContains "gpt-3.5-turbo-0301" "gpt-4" &&
      !strContains "gpt-3.5-turbo-0301" "gpt-3") = false := by decide
  simp [h43]

/-- C3 witness: the amended theorem at the character-count tokenizer and the
content "hi": 3 + 4 + 2 = 9 prompt tokens. -/
theorem C3_witness :
    calc_prompt_tokens encC3 "gpt-3.5-turbo-0301" [[("content", "hi")]] = some 9 := by
  have hv := C3_prompt_tokens_single_content encC3 (fun s => s.length) "hi" (by rfl)
  exact hv.trans (by decide)

/-! ### C4 -/

/-- C4, evaluated at the failing inputs: the message-event builder computes
`message_id` by the claimed priority (override, then response id + "-" +
index, then fresh uuid) but never uses it — the event's `id` field is always
the fresh uuid of the second `uuid.uuid4()` call (source line 35).  With an
override "override-id" and, separately, a response id "resp-9", the produced
id is the fresh uuid "uuid-1" in both cases. -/
theorem C4_override_discarded :
    getField ((build_messages_events tsX none uuidsX [msgX] (some "gpt-4") none
      (some "override-id") none [] 0).headD []) "id" = some (Value.vstr "uuid-1") ∧
    getField ((build_messages_events tsX none uuidsX [msgX] (some "gpt-4") none
      none (some "resp-9") [] 0).headD []) "id" = some (Value.vstr "uuid-1") ∧
    "uuid-1" ≠ "override-id" ∧ "uuid-1" ≠ "resp-9-0" := by
  refine ⟨by decide, by decide, by decide, by decide⟩

/-! ### C5 -/

/-- C5: the message-event builder reassigns `completion_id` from the ambient
span id, so every produced event's `completion_id` field equals the current
span id (caller tags not overriding it), and the output is entirely
independent of the caller-supplied `completion_id` argument. -/
theorem C5_completion_id_from_span (ts : TraceState) (prm : Option String)
    (uuids : Nat → String) (msgs : List Msg) (model cid cid2 ovr rid : Option String)
    (tags : List (String × Value)) (seq : Nat) (e : List (String × Value))
    (htags : ∀ kv ∈ tags, kv.1 ≠ "completion_id")
    (he : e ∈ build_messages_events ts prm uuids msgs model cid ovr rid tags seq) :
    getField e "completion_id" = some (ofOptStr ts.span_id) ∧
    build_messages_events ts prm uuids msgs model cid ovr rid tags seq
      = build_messages_events ts prm uuids msgs model cid2 ovr rid tags seq := by
  constructor
  · unfold build_messages_events at he
    simp only [List.mem_map] at he
    obtain ⟨p, _, rfl⟩ := he
    rw [getField_append_of_not_mem _ tags _ htags]
    simp [getField, get_trace_details]
  · rfl

/-- C5 witness: with caller-supplied completion id "caller-cid" the event's
`completion_id` is the ambient span id "span-1". -/
theorem C5_witness :
    getField ((build_messages_events tsX none uuidsX [msgX] (some "gpt-4")
      (some "caller-cid") none none [] 0).headD []) "completion_id"
      = some (Value.vstr "span-1") := by
  have hv := (C5_completion_id_from_span tsX none uuidsX [msgX] (some "gpt-4")
    (some "caller-cid") none none none [] 0
    ((build_messages_events tsX none uuidsX [msgX] (some "gpt-4")
      (some "caller-cid") none none [] 0).headD []) (by simp) (by decide)).1
  exact hv.trans (by decide)

/-! ### C6 -/

/-- The second component of an enumerated pair is a member of the list. -/
theorem snd_mem_of_mem_enum {α : Type} {p : Nat × α} {l : List α} (h : p ∈ l.enum) :
    p.2 ∈ l := by
  rw [List.mem_enum_iff_getElem?] at h
  exact List.mem_iff_getElem?.2 ⟨p.1, h⟩

/-- A 4096-character string. -/
def longStr : String := String.mk (List.replicate 4096 'a')

/-- An error object whose message is 4096 characters long. -/
def errLong : OpenAIError := ⟨some "org-1", 429, longStr, some "rate_limit_error", none, none⟩

/-- C6 counterexample: the completion-error builder stores the error message
unchanged — a 4096-character error message stays 4096 characters in the
`error_message` field, so the claim that every free-text-sourced field is
truncated to 4095 characters fails for error messages (likewise feedback
messages). -/
theorem C6_counterexample :
    getField (build_completion_summary_for_error tsX "apikey-9" reqX errLong
      "cid-1" false) "error_message" = some (Value.vstr longStr) ∧
    longStr.length = 4096 := by
  constructor
  · simp [build_completion_summary_for_error, errLong, getField, get_trace_details]
  · show (List.replicate 4096 'a').length = 4096
    exact List.length_replicate 4096 'a'

/-- C6 amended: truncation to 4095 characters (exactly 4095 when the source
is longer, unchanged when it is 4095 or shorter) is applied to message
content, streamed and non-streamed final response text, and embedding input;
error messages and feedback messages are stored unchanged, without
truncation. -/
theorem C6_truncation :
    (∀ s : String, (strTruncate s).length = min 4095 s.length ∧
      (s.length ≤ 4095 → strTruncate s = s)) ∧
    (∀ ts prm uuids msgs model cid ovr rid tags seq e,
      (∀ kv ∈ tags, kv.1 ≠ "content") →
      e ∈ build_messages_events ts prm uuids msgs model cid ovr rid tags seq →
      ∃ m ∈ msgs, getField e "content"
        = some (Value.vstr (strTruncate ((msgGet m "content").getD "")))) ∧
    (∀ encFor ts conv lc req hdrs msg rt cid e,
      build_stream_completion_events encFor ts conv lc req hdrs msg rt cid = some e →
      getField e "response"
        = some (Value.vstr (strTruncate ((msgGet msg "content").getD "")))) ∧
    (∀ ts conv resp req hdrs rt fm cid e,
      build_completion_summary ts conv resp req hdrs rt fm cid = some e →
      getField e "response"
        = some (Value.vstr (strTruncate ((msgGet fm "content").getD "")))) ∧
    (∀ ts u now resp req hdrs rt e inp,
      req.input = some inp →
      build_embedding_event ts u now resp req hdrs rt = some e →
      getField e "input" = some (Value.vstr (strTruncate inp))) ∧
    (∀ ts key req err cid st,
      getField (build_completion_summary_for_error ts key req err cid st)
        "error_message" = some (Value.vstr err.message)) ∧
    (∀ ts u now key req err,
      getField (build_embedding_error_event ts u now key req err)
        "error_message" = some (Value.vstr err.message)) ∧
    (∀ u now c r mi ci ri m,
      getField (build_ai_feedback_event u now c r mi ci ri m) "message"
        = some (Value.vstr m)) := by
  refine ⟨?_, ?_, ?_, ?_, ?_, ?_, ?_, ?_⟩
  · intro s
    refine ⟨?_, ?_⟩
    · show (s.data.take 4095).length = min 4095 s.data.length
      exact List.length_take 4095 s.data
    · intro hle
      have hle2 : s.data.length ≤ 4095 := hle
      show String.mk (s.data.take 4095) = s
      rw [List.take_of_length_le hle2]
  · intro ts prm uuids msgs model cid ovr rid tags seq e htags he
    unfold build_messages_events at he
    simp only [List.mem_map] at he
    obtain ⟨p, hp, rfl⟩ := he
    refine ⟨p.2, snd_mem_of_mem_enum hp, ?_⟩
    rw [getField_append_of_not_mem _ tags _ htags]
    simp [getField, get_trace_details]
  · intro encFor ts conv lc req hdrs msg rt cid e h
    unfold build_stream_completion_events at h
    cases hc : lc.choices.head? with
    | none => rw [hc] at h; exact absurd h (by simp)
    | some fr =>
      rw [hc] at h
      simp only [Option.some.injEq] at h
      subst h
      simp [getField, get_trace_details, _get_rate_limit_data]
  · intro ts conv resp req hdrs rt fm cid e h
    unfold build_completion_summary at h
    cases hc : resp.choices.head? with
    | none => rw [hc] at h; exact absurd h (by simp)
    | some fr =>
      rw [hc] at h
      simp only [Option.some.injEq] at h
      subst h
      simp [getField, get_trace_details, _get_rate_limit_data]
  · intro ts u now resp req hdrs rt e inp hin h
    unfold build_embedding_event at h
    rw [hin] at h
    simp only [Option.some.injEq] at h
    subst h
    simp [getField, get_trace_details, _get_rate_limit_data]
  · intro ts key req err cid st
    simp [build_completion_summary_for_error, getField, get_trace_details]
  · intro ts u now key req err
    simp [build_embedding_error_event, getField, get_trace_details]
  · intro u now c r mi ci ri m
    simp [build_ai_feedback_event, getField]

/-- C6 witness: the amended theorem instantiated on concrete calls: a short
string is unchanged, and the content/response/input fields of concrete
message, streaming, summary and embedding events hold the truncated text. -/
theorem C6_witness :
    strTruncate "hello" = "hello" ∧
    getField ((build_messages_events tsX none uuidsX [msgX] (some "gpt-4") none
      none none [] 0).headD []) "content" = some (Value.vstr "hi") ∧
    getField ((build_stream_completion_events encForX tsX none lcX reqX hdrsX msgX
      5 "cid-1").getD []) "response" = some (Value.vstr "hi") ∧
    getField ((build_completion_summary tsX none respX reqX hdrsX 5 msgX
      "cid-1").getD []) "response" = some (Value.vstr "hi") ∧
    getField ((build_embedding_event tsX "uuid-9" 7 embRespX reqX hdrsX 5).getD [])
      "input" = some (Value.vstr "hello world") := by
  refine ⟨?_, ?_, ?_, ?_, ?_⟩
  · exact (C6_truncation.1 "hello").2 (by decide)
  · have hv := C6_truncation.2.1 tsX none uuidsX [msgX] (some "gpt-4") none none
      none [] 0 ((build_messages_events tsX none uuidsX [msgX] (some "gpt-4") none
      none none [] 0).headD []) (by simp) (by decide)
    simp only [List.mem_singleton, exists_eq_left] at hv
    exact hv.trans (by decide)
  · have hv := C6_truncation.2.2.1 encForX tsX none lcX reqX hdrsX msgX 5 "cid-1"
      ((build_stream_completion_events encForX tsX none lcX reqX hdrsX msgX
        5 "cid-1").getD []) (by rfl)
    exact hv.trans (by decide)
  · have hv := C6_truncation.2.2.2.1 tsX none respX reqX hdrsX 5 msgX "cid-1"
      ((build_completion_summary tsX none respX reqX hdrsX 5 msgX "cid-1").getD [])
      (by rfl)
    exact hv.trans (by decide)
  · have hv := C6_truncation.2.2.2.2.1 tsX "uuid-9" 7 embRespX reqX hdrsX 5
      ((build_embedding_event tsX "uuid-9" 7 embRespX reqX hdrsX 5).getD [])
      "hello world" (by rfl) (by rfl)
    exact hv.trans (by decide)

/-! ### C7 -/

/-- C7: for every headers mapping the extractor yields a record in which each
of the four numeric rate-limit fields is present, and holds the parsed
integer exactly when the header is present, non-empty and all digits, and
holds `None` otherwise (in particular `None`, not `0`, for a missing
header); the two reset fields are passed through as raw header strings.
The extractor is a total function: it never raises. -/
theorem C7_rate_limit_extraction (headers : List (String × String)) :
    (∀ name, name ∈ ["ratelimit_limit_requests", "ratelimit_limit_tokens",
        "ratelimit_remaining_tokens", "ratelimit_remaining_requests"] →
      (dictGet headers name = none →
        getField (_get_rate_limit_data headers) name = some Value.vnone) ∧
      (∀ h, dictGet headers name = some h → isPyDigits h = true →
        getField (_get_rate_limit_data headers) name = some (Value.vint (parseDigits h))) ∧
      (∀ h, dictGet headers name = some h → isPyDigits h = false →
        getField (_get_rate_limit_data headers) name = some Value.vnone)) ∧
    getField (_get_rate_limit_data headers) "ratelimit_reset_tokens"
      = some (ofOptStr (dictGet headers "x-ratelimit-reset-tokens")) ∧
    getField (_get_rate_limit_data headers) "ratelimit_reset_requests"
      = some (ofOptStr (dictGet headers "x-ratelimit-reset-requests")) := by
  refine ⟨?_, ?_, ?_⟩
  · intro name hn
    simp only [List.mem_cons, List.mem_singleton] at hn
    rcases hn with rfl | rfl | rfl | rfl | h
    case inr.inr.inr.inr => simp at h
    all_goals
      refine ⟨?_, ?_, ?_⟩
      · intro hd
        simp [_get_rate_limit_data, getField, hd, ofOptInt]
      · intro h hd hdig
        simp [_get_rate_limit_data, getField, hd, hdig, ofOptInt]
      · intro h hd hdig
        simp [_get_rate_limit_data, getField, hd, hdig, ofOptInt]
  · simp [_get_rate_limit_data, getField]
  · simp [_get_rate_limit_data, getField]

/-- C7 witness: on headers with a digit-valued limit header, a non-digit
token-limit header, a missing remaining-tokens header and a raw reset
string, the extractor parses 60, leaves the malformed and missing fields
`None`, and passes the reset string through. -/
theorem C7_witness :
    getField (_get_rate_limit_data hdrsX) "ratelimit_limit_requests"
      = some (Value.vint 60) ∧
    getField (_get_rate_limit_data hdrsX) "ratelimit_limit_tokens"
      = some Value.vnone ∧
    getField (_get_rate_limit_data hdrsX) "ratelimit_remaining_tokens"
      = some Value.vnone ∧
    getField (_get_rate_limit_data hdrsX) "ratelimit_reset_tokens"
      = some (Value.vstr "6m0s") := by
  refine ⟨?_, ?_, ?_, ?_⟩
  · have hv := ((C7_rate_limit_extraction hdrsX).1 "ratelimit_limit_requests"
      (by simp)).2.1 "60" (by decide) (by decide)
    exact hv.trans (by decide)
  · have hv := ((C7_rate_limit_extraction hdrsX).1 "ratelimit_limit_tokens"
      (by simp)).2.2 "60x" (by decide) (by decide)
    exact hv
  · have hv := ((C7_rate_limit_extraction hdrsX).1 "ratelimit_remaining_tokens"
      (by simp)).1 (by decide)
    exact hv
  · exact (C7_rate_limit_extraction hdrsX).2.1.trans (by decide)

/-! ### C8 -/

/-- C8: when no tokenization scheme exists for a model, both token counters
return `None` for every input (they are total functions, so they never
raise); the prompt counter additionally returns `None` for any model whose
name contains neither "gpt-4" nor "gpt-3". -/
theorem C8_unknown_model (encFor : String → Option (String → Nat)) (model : String) :
    (encFor model = none →
      (∀ text, calc_completion_tokens encFor model text = none) ∧
      (∀ msgs, calc_prompt_tokens encFor model msgs = none)) ∧
    (strContains model "gpt-4" = false → strContains model "gpt-3" = false →
      ∀ msgs, calc_prompt_tokens encFor model msgs = none) := by
  constructor
  · intro h
    constructor
    · intro text
      unfold calc_completion_tokens
      rw [h]
    · intro msgs
      unfold calc_prompt_tokens
      rw [h]
  · intro h4 h3 msgs
    unfold calc_prompt_tokens
    cases he : encFor model with
    | none => rfl
    | some enc => simp [h4, h3]

/-- C8 witness: with an empty tokenizer table both counters return `None` on
the model "claude-2"; the prompt counter also returns `None` for "claude-2"
under `encForX` since the name contains neither vendor substring. -/
theorem C8_witness :
    calc_completion_tokens (fun _ => none) "claude-2" "hello" = none ∧
    calc_prompt_tokens (fun _ => none) "claude-2" [msgX] = none ∧
    calc_prompt_tokens encForX "claude-2" [msgX] = none := by
  refine ⟨?_, ?_, ?_⟩
  · exact ((C8_unknown_model (fun _ => none) "claude-2").1 rfl).1 "hello"
  · exact ((C8_unknown_model (fun _ => none) "claude-2").1 rfl).2 [msgX]
  · exact (C8_unknown_model encForX "claude-2").2 (by decide) (by decide) [msgX]

/-! ### C9 -/

/-- A second sample uuid supply, distinct from `uuidsX`. -/
def uuidsY : Nat → String := fun n => "uid2-" ++ toString n

/-- C9: with all inputs (request, response, headers, timing, ambient trace
state and clock) held identical and only the generated uuid varying, every
builder that draws a random id — the message builder (per message index),
the embedding builder, the embedding-error builder and the feedback
builder — produces events that agree on every field other than `id`.  The
three completion builders (streaming, summary, error summary) draw no uuid
at all: they are pure functions of their arguments, so two calls with
identical inputs yield identical events, and their `id` field is the
caller-supplied completion id, never a random one.  (`get_trace_details` is
a pure function of the trace state, so it contributes identically to
repeated calls.) -/
theorem C9_only_id_varies :
    (∀ ts prm uuids1 uuids2 msgs model cid ovr rid tags seq (i : Nat) e1 e2 key,
      (build_messages_events ts prm uuids1 msgs model cid ovr rid tags seq)[i]? = some e1 →
      (build_messages_events ts prm uuids2 msgs model cid ovr rid tags seq)[i]? = some e2 →
      key ≠ "id" → getField e1 key = getField e2 key) ∧
    (∀ encFor ts conv lc req hdrs msg rt cid e,
      build_stream_completion_events encFor ts conv lc req hdrs msg rt cid = some e →
      getField e "id" = some (Value.vstr cid)) ∧
    (∀ ts conv resp req hdrs rt fm cid e,
      build_completion_summary ts conv resp req hdrs rt fm cid = some e →
      getField e "id" = some (Value.vstr cid)) ∧
    (∀ ts kapi req err cid st,
      getField (build_completion_summary_for_error ts kapi req err cid st) "id"
        = some (Value.vstr cid)) ∧
    (∀ ts u1 u2 now resp req hdrs rt e1 e2 key,
      build_embedding_event ts u1 now resp req hdrs rt = some e1 →
      build_embedding_event ts u2 now resp req hdrs rt = some e2 →
      key ≠ "id" → getField e1 key = getField e2 key) ∧
    (∀ ts u1 u2 now kapi req err key, key ≠ "id" →
      getField (build_embedding_error_event ts u1 now kapi req err) key
        = getField (build_embedding_error_event ts u2 now kapi req err) key) ∧
    (∀ u1 u2 now c r mi ci ri m key, key ≠ "id" →
      getField (build_ai_feedback_event u1 now c r mi ci ri m) key
        = getField (build_ai_feedback_event u2 now c r mi ci ri m) key) := by
  refine ⟨?_, ?_, ?_, ?_, ?_, ?_, ?_⟩
  · intro ts prm uuids1 uuids2 msgs model cid ovr rid tags seq i e1 e2 key h1 h2 hk
    unfold build_messages_events at h1 h2
    simp only [List.getElem?_map] at h1 h2
    cases hme : msgs.enum[i]? with
    | none => rw [hme] at h1; exact absurd h1 (by simp)
    | some p =>
      rw [hme] at h1 h2
      simp only [Option.map_some', Option.some.injEq] at h1 h2
      subst h1
      subst h2
      simp only [List.cons_append]
      rw [getField_cons_ne _ _ _ _ (fun he => hk he.symm),
        getField_cons_ne _ _ _ _ (fun he => hk he.symm)]
  · intro encFor ts conv lc req hdrs msg rt cid e h
    unfold build_stream_completion_events at h
    cases hc : lc.choices.head? with
    | none => rw [hc] at h; exact absurd h (by simp)
    | some fr =>
      rw [hc] at h
      simp only [Option.some.injEq] at h
      subst h
      simp [getField, get_trace_details, _get_rate_limit_data]
  · intro ts conv resp req hdrs rt fm cid e h
    unfold build_completion_summary at h
    cases hc : resp.choices.head? with
    | none => rw [hc] at h; exact absurd h (by simp)
    | some fr =>
      rw [hc] at h
      simp only [Option.some.injEq] at h
      subst h
      simp [getField, get_trace_details, _get_rate_limit_data]
  · intro ts kapi req err cid st
    simp [build_completion_summary_for_error, getField, get_trace_details]
  · intro ts u1 u2 now resp req hdrs rt e1 e2 key h1 h2 hk
    unfold build_embedding_event at h1 h2
    cases hin : req.input with
    | none => rw [hin] at h1; exact absurd h1 (by simp)
    | some inp =>
      rw [hin] at h1 h2
      simp only [Option.some.injEq] at h1 h2
      subst h1
      subst h2
      simp only [List.cons_append]
      rw [getField_cons_ne _ _ _ _ (fun he => hk he.symm),
        getField_cons_ne _ _ _ _ (fun he => hk he.symm)]
  · intro ts u1 u2 now kapi req err key hk
    unfold build_embedding_error_event
    simp only [List.cons_append]
    rw [getField_cons_ne _ _ _ _ (fun he => hk he.symm),
      getField_cons_ne _ _ _ _ (fun he => hk he.symm)]
  · intro u1 u2 now c r mi ci ri m key hk
    unfold build_ai_feedback_event
    rw [getField_cons_ne _ _ _ _ (fun he => hk he.symm),
      getField_cons_ne _ _ _ _ (fun he => hk he.symm)]

/-- C9 witness: the theorem instantiated on concrete calls of all seven
builders: message events built from two different uuid supplies agree on
`content`, the events of the three completion builders carry the caller-supplied
id "cid-1", and embedding / embedding-error / feedback events built with the
uuids "uuid-8" and "uuid-9" agree on their non-id fields. -/
theorem C9_witness :
    getField ((build_messages_events tsX none uuidsX [msgX] (some "gpt-4") none
        none none [] 0).headD []) "content"
      = getField ((build_messages_events tsX none uuidsY [msgX] (some "gpt-4") none
        none none [] 0).headD []) "content" ∧
    getField ((build_stream_completion_events encForX tsX none lcX reqX hdrsX msgX
        5 "cid-1").getD []) "id" = some (Value.vstr "cid-1") ∧
    getField ((build_completion_summary tsX none respX reqX hdrsX 5 msgX
        "cid-1").getD []) "id" = some (Value.vstr "cid-1") ∧
    getField (build_completion_summary_for_error tsX "apikey-9" reqX errX "cid-1"
        false) "id" = some (Value.vstr "cid-1") ∧
    getField ((build_embedding_event tsX "uuid-8" 7 embRespX reqX hdrsX 5).getD [])
        "usage.total_tokens"
      = getField ((build_embedding_event tsX "uuid-9" 7 embRespX reqX hdrsX 5).getD [])
        "usage.total_tokens" ∧
    getField (build_embedding_error_event tsX "uuid-8" 7 "apikey-9" reqX errX)
        "timestamp"
      = getField (build_embedding_error_event tsX "uuid-9" 7 "apikey-9" reqX errX)
        "timestamp" ∧
    getField (build_ai_feedback_event "uuid-8" 7 (Value.vstr "informative")
        (Value.vint 5) (Value.vstr "msg-1") (Value.vstr "conv-1")
        (Value.vstr "req-1") "great") "timestamp"
      = getField (build_ai_feedback_event "uuid-9" 7 (Value.vstr "informative")
        (Value.vint 5) (Value.vstr "msg-1") (Value.vstr "conv-1")
        (Value.vstr "req-1") "great") "timestamp" := by
  refine ⟨?_, ?_, ?_, ?_, ?_, ?_, ?_⟩
  · exact C9_only_id_varies.1 tsX none uuidsX uuidsY [msgX] (some "gpt-4") none
      none none [] 0 0
      ((build_messages_events tsX none uuidsX [msgX] (some "gpt-4") none
        none none [] 0).headD [])
      ((build_messages_events tsX none uuidsY [msgX] (some "gpt-4") none
        none none [] 0).headD [])
      "content" (by rfl) (by rfl) (by decide)
  · exact C9_only_id_varies.2.1 encForX tsX none lcX reqX hdrsX msgX 5 "cid-1"
      ((build_stream_completion_events encForX tsX none lcX reqX hdrsX msgX
        5 "cid-1").getD []) (by rfl)
  · exact C9_only_id_varies.2.2.1 tsX none respX reqX hdrsX 5 msgX "cid-1"
      ((build_completion_summary tsX none respX reqX hdrsX 5 msgX "cid-1").getD [])
      (by rfl)
  · exact C9_only_id_varies.2.2.2.1 tsX "apikey-9" reqX errX "cid-1" false
  · exact C9_only_id_varies.2.2.2.2.1 tsX "uuid-8" "uuid-9" 7 embRespX reqX hdrsX 5
      ((build_embedding_event tsX "uuid-8" 7 embRespX reqX hdrsX 5).getD [])
      ((build_embedding_event tsX "uuid-9" 7 embRespX reqX hdrsX 5).getD [])
      "usage.total_tokens" (by rfl) (by rfl) (by decide)
  · exact C9_only_id_varies.2.2.2.2.2.1 tsX "uuid-8" "uuid-9" 7 "apikey-9" reqX
      errX "timestamp" (by decide)
  · exact C9_only_id_varies.2.2.2.2.2.2 "uuid-8" "uuid-9" 7 (Value.vstr "informative")
      (Value.vint 5) (Value.vstr "msg-1") (Value.vstr "conv-1") (Value.vstr "req-1")
      "great" "timestamp" (by decide)

/-! ### C10 -/

/-- C10: the embedding builder requires a string `"input"`: when the request
has no `"input"` key it raises (`None[:4095]`, a `TypeError`, modelled as
`none`) instead of returning an event, whereas the message builder
substitutes the empty string when a message has no content. -/
theorem C10_embedding_requires_input (ts : TraceState) (u : String) (now : Nat)
    (resp : EmbResponse) (req : Request) (hdrs : List (String × String)) (rt : Int)
    (prm : Option String) (uuids : Nat → String) (msg : Msg)
    (model cid ovr rid : Option String) (seq : Nat) (e : List (String × Value)) :
    (req.input = none → build_embedding_event ts u now resp req hdrs rt = none) ∧
    (msgGet msg "content" = none →
      e ∈ build_messages_events ts prm uuids [msg] model cid ovr rid [] seq →
      getField e "content" = some (Value.vstr "")) := by
  constructor
  · intro h
    unfold build_embedding_event
    rw [h]
  · intro hc he
    unfold build_messages_events at he
    simp only [List.mem_map] at he
    obtain ⟨p, hp, rfl⟩ := he
    have hmem := snd_mem_of_mem_enum hp
    simp only [List.mem_singleton] at hmem
    subst hmem
    simp [getField, get_trace_details, hc, strTruncate]

/-- C10 witness: a request with no `"input"` key makes the embedding builder
raise, and a message with no `"content"` key yields a message event whose
content is the empty string. -/
theorem C10_witness :
    build_embedding_event tsX "uuid-9" 7 embRespX reqNoMsgs hdrsX 5 = none ∧
    getField ((build_messages_events tsX none uuidsX [[("role", "user")]]
      (some "gpt-4") none none none [] 0).headD []) "content"
      = some (Value.vstr "") := by
  constructor
  · exact (C10_embedding_requires_input tsX "uuid-9" 7 embRespX reqNoMsgs hdrsX 5
      none uuidsX [] none none none none 0 []).1 (by rfl)
  · exact (C10_embedding_requires_input tsX "uuid-9" 7 embRespX reqNoMsgs hdrsX 5
      none uuidsX [("role", "user")] (some "gpt-4") none none none 0
      ((build_messages_events tsX none uuidsX [[("role", "user")]]
        (some "gpt-4") none none none [] 0).headD [])).2 (by decide) (by decide)
